import Mathlib

/-!
Shallow embedding of the loan-valuation engine of jeff-stratofied/loan-valuation.

The canonical valuation engine is the draft in src/unnamed/part_000 (the most
evolved `valuationEngine.js`), with the final IRR-solver variant taken from
src/unnamed/part_001.  JavaScript numbers are modelled as exact rationals (ℚ);
values that can be `null`/`undefined`/`NaN` are modelled with `Option` or with
the small `JsOut` type below.  The transcendental expression
`1 - Math.pow(1 - x/100, 1/12)` used by the curve interpolators is abstracted
as a parameter `g : ℚ → ℚ` (its value is irrational, so it cannot be a
computable rational function); every structural property proved below holds
for an arbitrary `g`.
-/

/-- A JavaScript value that is either `null`/`undefined`, `NaN`, or a number.
Used for the financial fields of a valuation result. -/
inductive JsOut where
  | nullv : JsOut
  | nan : JsOut
  | num : ℚ → JsOut
  deriving DecidableEq, Repr

/-- JS truthiness of a possibly-missing number: `null`/`undefined`/`NaN`
(modelled `none`) and `0` are falsy. -/
def jsTruthy (x : Option ℚ) : Bool :=
  match x with
  | none => false
  | some q => decide (q ≠ 0)

/-- JS `x || d` on a possibly-missing number. -/
def jsOrNum (x : Option ℚ) (d : ℚ) : ℚ :=
  if jsTruthy x then x.getD 0 else d

/-- JS truthiness of a possibly-missing string: `null`/`undefined` and `""`
are falsy. -/
def jsTruthyStr (x : Option String) : Bool :=
  match x with
  | none => false
  | some s => decide (s ≠ "")

/-- JS `s || d` on a possibly-missing string. -/
def jsOrStr (x : Option String) (d : String) : String :=
  if jsTruthyStr x then x.getD "" else d

/-- JS `x >= c` where `x` may be `null`/`undefined`/`NaN` (comparison with
those is false). -/
def jsGE (x : Option ℚ) (c : ℚ) : Bool :=
  match x with
  | none => false
  | some q => decide (c ≤ q)

/-- JS `x <= 0` where `x` may be `null`/`undefined`/`NaN`. -/
def jsLe0 (x : Option ℚ) : Bool :=
  match x with
  | none => false
  | some q => decide (q ≤ 0)

-- ================================
-- RISK DERIVATION (src/unnamed/part_000 lines 39-131)
-- ================================

/-- `deriveFicoBand` (part_000 lines 39-46). -/
def deriveFicoBand (fico : Option ℚ) : String :=
  match fico with
  | none => "UNKNOWN"
  | some f =>
    if 760 ≤ f then "A"
    else if 720 ≤ f then "B"
    else if 680 ≤ f then "C"
    else if 640 ≤ f then "D"
    else "E"

/-- The FICO blend computed inside `deriveRiskTier` (part_000 lines 111-114):
`borrowerFico ? Math.max(borrowerFico, alpha*borrowerFico +
(1-alpha)*(cosignerFico || borrowerFico)) : cosignerFico || 0` with
`alpha = 0.7`. -/
def blendedFico (borrowerFico cosignerFico : Option ℚ) : ℚ :=
  if jsTruthy borrowerFico then
    max (borrowerFico.getD 0)
      (7/10 * borrowerFico.getD 0 +
        (1 - 7/10) * jsOrNum cosignerFico (borrowerFico.getD 0))
  else jsOrNum cosignerFico 0

/-- Borrower record (§3 of the reference data model). -/
structure Borrower where
  borrowerFico : Option ℚ
  cosignerFico : Option ℚ
  yearInSchool : Option ℚ
  isGraduateStudent : Bool
  degreeType : String
  school : String
  opeid : Option String
  deriving DecidableEq, Repr

/-- `deriveRiskTier` (part_000 lines 110-131).  The block after the
`return "VERY_HIGH"` statement in the source is unreachable (it references
undeclared variables) and is not modelled. -/
def deriveRiskTier (b : Borrower) : String :=
  let fico := blendedFico b.borrowerFico b.cosignerFico
  let band := deriveFicoBand (some fico)
  if band = "A" ∧ jsGE b.yearInSchool 3 then "LOW"
  else if band = "A" ∨ band = "B" then "MEDIUM"
  else if band = "C" ∨ band = "D" then "HIGH"
  else "VERY_HIGH"

-- ================================
-- SCHOOL TIER DATA (src/unnamed/part_000 lines 48-106)
-- ================================

/-- One entry of the school-tier table (`SCHOOLTIERS[key]`).
`median_earnings_10yr = none` models JSON `null`. -/
structure SchoolData where
  tier : Option String
  median_earnings_10yr : Option ℚ
  name : Option String
  deriving DecidableEq, Repr

/-- The school-tier table, keyed by OPEID (plus a `"DEFAULT"` entry).
JS objects have unique keys; a JSON-loaded table has one distinct object per
key, so property assignment is keyed update. -/
def TierTable := List (String × SchoolData)

instance : DecidableEq TierTable := by
  unfold TierTable
  infer_instance

/-- In-place property assignment `T[k].median_earnings_10yr = v` modelled as
a keyed update of the table. -/
def setEntry (T : TierTable) (k : String) (d : SchoolData) : TierTable :=
  List.map (fun p => if p.1 = k then (k, d) else p) T

/-- `getSchoolTier` (part_000 lines 48-71).  Returns the tier string together
with the (possibly mutated) school-tier table: the source writes
`schoolData.median_earnings_10yr = 50000` into the looked-up entry when that
field is `null`, mutating the shared `SCHOOLTIERS` object in place.  When the
looked-up entry is missing entirely (no OPEID match and no `"DEFAULT"` entry)
the source dereferences `undefined` and throws, modelled by `.error`. -/
def getSchoolTier (tiers : Option TierTable) (_schoolName : String)
    (opeid : Option String) : Except String (String × Option TierTable) :=
  match tiers with
  | none => .ok ("Tier 3", none)
  | some T =>
    let keyData : String × Option SchoolData :=
      if jsTruthyStr opeid then
        let trimmed := (opeid.getD "").trim
        match T.lookup trimmed with
        | some d => (trimmed, some d)
        | none => ("DEFAULT", T.lookup "DEFAULT")
      else ("DEFAULT", T.lookup "DEFAULT")
    match keyData with
    | (_, none) => .error "TypeError: schoolData is undefined"
    | (k, some d) =>
      if d.median_earnings_10yr = none then
        let d2 : SchoolData := { d with median_earnings_10yr := some 50000 }
        .ok (jsOrStr d2.tier "Tier 3", some (setEntry T k d2))
      else
        .ok (jsOrStr d.tier "Tier 3", some T)

/-- `getSchoolAdjBps` (part_000 lines 98-106).  Note the JS `adjMap[tier] ||
+100` maps the `Tier 2` adjustment `0` (falsy) to `100` as well. -/
def getSchoolAdjBps (tier : String) : ℚ :=
  let lookedUp : Option ℚ :=
    if tier = "Tier 1" then some (-75)
    else if tier = "Tier 2" then some 0
    else if tier = "Tier 3" then some 125
    else if tier = "Unknown" then some 100
    else none
  jsOrNum lookedUp 100

-- ================================
-- CURVE INTERPOLATION (src/unnamed/part_000 lines 245-278,
-- src/unnamed/part_001 lines 269-298, src/valuationEngine.js lines 305-338)
-- ================================

/-- First-differencing of the cumulative-default-by-year series:
`annual[0] = cum[0]`, `annual[i] = cum[i] - cum[i-1]` (part_000 line 246). -/
def firstDiff (cum : List ℚ) : List ℚ :=
  match cum with
  | [] => []
  | c0 :: rest => c0 :: List.zipWith (fun a b => a - b) rest cum

/-- The year-to-months broadcast shared by both interpolators: push the
per-year monthly value `g a` twelve times per year, stopping at `n` entries,
then right-pad with `monthly[monthly.length-1] || 0` until `n` entries.
`g` abstracts `a ↦ 1 - Math.pow(1 - a/100, 1/12)`. -/
def broadcast12 (g : ℚ → ℚ) (vals : List ℚ) (n : ℕ) : List ℚ :=
  let base := ((vals.map (fun a => List.replicate 12 (g a))).flatten).take n
  base ++ List.replicate (n - base.length) ((base.getLast?).getD 0)

/-- `interpolateCumulativeDefaultsToMonthlyPD` (part_000 lines 245-261):
first-difference the cumulative series, then broadcast. -/
def interpolateCumulativeDefaultsToMonthlyPD (g : ℚ → ℚ) (cumDefaultsPct : List ℚ)
    (termMonths : ℕ) : List ℚ :=
  broadcast12 g (firstDiff cumDefaultsPct) termMonths

/-- `interpolateAnnualCPRToMonthlySMM` (part_000 lines 263-278): broadcast
the annual CPR series directly, no differencing. -/
def interpolateAnnualCPRToMonthlySMM (g : ℚ → ℚ) (annualCPRPct : List ℚ)
    (termMonths : ℕ) : List ℚ :=
  broadcast12 g annualCPRPct termMonths

-- ================================
-- MONTHLY CASH FLOW LOOP (src/unnamed/part_000 lines 296-347,
-- src/unnamed/part_001 lines 316-365)
-- ================================

/-- Parameters of the monthly cash-flow loop.  `payments m` is the scheduled
payment used in month `m` (part_000 takes it from the amortization schedule,
part_001 uses a constant); `monthlySMM`/`monthlyPD` are the interpolated
vectors read at index `m-1`; `lateDF recMonth` is the discount factor the
unreachable beyond-queue branch would apply (part_000 line 332 and part_001
line 348 spell it differently; it is dead code either way, see
`recoveryBranch_always_queues`). -/
structure SimParams where
  payments : ℕ → ℚ
  monthlySMM : ℕ → ℚ
  monthlyPD : ℕ → ℚ
  monthlyLoanRate : ℚ
  monthlyDiscountRate : ℚ
  recoveryPct : ℚ
  recoveryLag : ℕ
  termMonths : ℕ
  lateDF : ℕ → ℚ

/-- Mutable loop state.  `queue` models `recoveryQueue` (a fixed array of
length `termMonths + recoveryLag + 1` initialized to zero, part_000 line 303);
`cashFlows` starts as `[-principal]` (part_000 line 302). -/
structure SimState where
  balance : ℚ
  npv : ℚ
  totalDefaults : ℚ
  totalRecoveries : ℚ
  walNumerator : ℚ
  totalCF : ℚ
  cashFlows : List ℚ
  queue : ℕ → ℚ

/-- The intermediate quantities of one active month `m` (part_000 lines
311-345), computed from the state at loop entry. -/
structure MonthOut where
  interest : ℚ
  principalPaid : ℚ
  prepay : ℚ
  defaultAmt : ℚ
  lateRecovery : ℚ
  queueAfter : ℕ → ℚ
  recoveryThisMonth : ℚ
  cashFlow : ℚ
  discountedCF : ℚ
  newBalance : ℚ

/-- One active month of the loop body (the `balance > 0` path). -/
def monthData (P : SimParams) (m : ℕ) (s : SimState) : MonthOut :=
  let interest := s.balance * P.monthlyLoanRate
  let principalPaid := min (P.payments m - interest) s.balance
  let remaining0 := s.balance - principalPaid
  let prepay := remaining0 * P.monthlySMM m
  let remaining1 := remaining0 - prepay
  let defaultAmt := remaining1 * P.monthlyPD m
  let remaining2 := remaining1 - defaultAmt
  let recMonth := m + P.recoveryLag
  let qLen := P.termMonths + P.recoveryLag + 1
  let queued := decide (recMonth < qLen)
  let queueAfter :=
    if queued then Function.update s.queue recMonth (s.queue recMonth + defaultAmt * P.recoveryPct)
    else s.queue
  let lateRecovery := if queued then 0 else defaultAmt * P.recoveryPct
  let recoveryThisMonth := queueAfter m
  let cashFlow := interest + principalPaid + prepay + recoveryThisMonth
  let discountedCF := cashFlow / (1 + P.monthlyDiscountRate) ^ m
  { interest := interest, principalPaid := principalPaid, prepay := prepay,
    defaultAmt := defaultAmt, lateRecovery := lateRecovery,
    queueAfter := queueAfter, recoveryThisMonth := recoveryThisMonth,
    cashFlow := cashFlow, discountedCF := discountedCF,
    newBalance := remaining2 }

/-- One iteration of the loop for month `m`: the `balance <= 0` branch pushes
a zero cash flow and touches nothing else (part_000 lines 306-309). -/
def simStep (P : SimParams) (m : ℕ) (s : SimState) : SimState :=
  if s.balance ≤ 0 then { s with cashFlows := s.cashFlows ++ [0] }
  else
    let d := monthData P m s
    { balance := d.newBalance,
      npv := s.npv + d.lateRecovery * P.lateDF (m + P.recoveryLag) + d.discountedCF,
      totalDefaults := s.totalDefaults + d.defaultAmt,
      totalRecoveries := s.totalRecoveries + d.lateRecovery + d.recoveryThisMonth,
      walNumerator := s.walNumerator + d.discountedCF * m,
      totalCF := s.totalCF + d.discountedCF,
      cashFlows := s.cashFlows ++ [d.cashFlow],
      queue := d.queueAfter }

/-- Loop state on entry to month `n + 1` (i.e. after months `1..n`). -/
def simRunTo (P : SimParams) (principal : ℚ) : ℕ → SimState
  | 0 =>
    { balance := principal, npv := 0, totalDefaults := 0, totalRecoveries := 0,
      walNumerator := 0, totalCF := 0, cashFlows := [-principal],
      queue := fun _ => 0 }
  | n + 1 => simStep P (n + 1) (simRunTo P principal n)

/-- The completed loop (`for m = 1; m <= termMonths`). -/
def simulate (P : SimParams) (principal : ℚ) : SimState :=
  simRunTo P principal P.termMonths

/-- The per-month defaulted amount actually accumulated into
`totalDefaults` in month `m` (zero in the retired-balance branch). -/
def defAt (P : SimParams) (principal : ℚ) (m : ℕ) : ℚ :=
  let s := simRunTo P principal (m - 1)
  if s.balance ≤ 0 then 0 else (monthData P m s).defaultAmt

/-- The per-month recognized recovery accumulated into `totalRecoveries`
in month `m` (queued payout plus the beyond-queue immediate recognition). -/
def recAt (P : SimParams) (principal : ℚ) (m : ℕ) : ℚ :=
  let s := simRunTo P principal (m - 1)
  if s.balance ≤ 0 then 0
  else (monthData P m s).lateRecovery + (monthData P m s).recoveryThisMonth

/-- The per-month discounted cash flow accumulated into `totalCF`
in month `m`. -/
def dcfAt (P : SimParams) (principal : ℚ) (m : ℕ) : ℚ :=
  let s := simRunTo P principal (m - 1)
  if s.balance ≤ 0 then 0 else (monthData P m s).discountedCF


-- ================================
-- OUTPUT FORMULAS (src/unnamed/part_000 lines 349-351,
-- src/unnamed/part_001 lines 367-369)
-- ================================

/-- `npvRatio = principal > 0 && Number.isFinite(npv) ? npv/principal - 1 :
null`.  In the exact-rational model `Number.isFinite(npv)` is identically
true. -/
def npvRatioOut (principal npv : ℚ) : JsOut :=
  if 0 < principal then .num (npv / principal - 1) else .nullv

/-- `expectedLoss = principal > 0 ? (totalDefaults - totalRecoveries) /
principal : 0` — a number in both branches, never `null`. -/
def expectedLossOut (principal totalDefaults totalRecoveries : ℚ) : JsOut :=
  if 0 < principal then .num ((totalDefaults - totalRecoveries) / principal)
  else .num 0

/-- `wal = totalCF > 0 ? walNumerator / totalCF / 12 : NaN`. -/
def walOut (walNumerator totalCF : ℚ) : JsOut :=
  if 0 < totalCF then .num (walNumerator / totalCF / 12) else .nan

-- ================================
-- IRR SOLVERS (src/unnamed/part_000 lines 388-411,
-- src/unnamed/part_001 lines 408-432)
-- ================================

/-- `npv = -principal + Σ_{t=1..} cashFlows[t]/(1+irr)^t`, the residual NPV
evaluated inside each bisection iteration. -/
def irrNpvAux (cfs : List ℚ) (irr : ℚ) (t : ℕ) : ℚ :=
  match cfs with
  | [] => 0
  | c :: rest => c / (1 + irr) ^ t + irrNpvAux rest irr (t + 1)

/-- Residual NPV of the cash-flow vector at monthly rate `irr` (the inner
loop of `calculateIRR`; `cashFlows[0]` is skipped, `t` starts at 1). -/
def irrNpv (cashFlows : List ℚ) (principal irr : ℚ) : ℚ :=
  -principal + irrNpvAux (cashFlows.drop 1) irr 1

/-- Bisection loop of the part_000 `calculateIRR` (lines 396-408): returns
the final monthly rate; both the early-convergence return and the
post-loop return annualize it identically and unguarded. -/
def irrLoopA (cfs : List ℚ) (principal : ℚ) : ℕ → ℚ → ℚ → ℚ → ℚ
  | 0, _, _, irr => irr
  | n + 1, lo, hi, irr =>
    let npv := irrNpv cfs principal irr
    if |npv| < 1 / 1000000 then irr
    else if 0 < npv then irrLoopA cfs principal n irr hi ((irr + hi) / 2)
    else irrLoopA cfs principal n lo irr ((lo + irr) / 2)

/-- `calculateIRR` of part_000 (lines 388-411): bounds `[-1, 1]`, initial
guess `0.1`, `MAX_ITER = 100`, `PRECISION = 1e-6`; the result `irr*12*100`
is returned with no finiteness or plausibility guard. -/
def calculateIRR (cashFlows : List ℚ) (principal : ℚ) (guess : ℚ := 1/10) : ℚ :=
  irrLoopA cashFlows principal 100 (-1) 1 guess * 12 * 100

/-- Bisection loop of the part_001 `calculateIRR` (lines 416-431).  The
early-convergence return (line 422) is unguarded; only the 100-iteration
fallback applies `Number.isFinite(annualIrr) && annualIrr > -100 ? annualIrr
: NaN` (finiteness is identically true over ℚ). -/
def irrLoopB (cfs : List ℚ) (principal : ℚ) : ℕ → ℚ → ℚ → ℚ → JsOut
  | 0, _, _, irr =>
    let annualIrr := irr * 12 * 100
    if -100 < annualIrr then .num annualIrr else .nan
  | n + 1, lo, hi, irr =>
    let npv := irrNpv cfs principal irr
    if |npv| < 1 / 1000000 then .num (irr * 12 * 100)
    else if 0 < npv then irrLoopB cfs principal n irr hi ((irr + hi) / 2)
    else irrLoopB cfs principal n lo irr ((lo + irr) / 2)

/-- `calculateIRR` of part_001 (lines 408-432): bounds `[-0.5, 0.5]`,
initial guess `0.008`, `MAX_ITER = 100`, `PRECISION = 1e-6`, with the
fallback-only NaN guard. -/
def calculateIRRFinal (cashFlows : List ℚ) (principal : ℚ) : JsOut :=
  irrLoopB cashFlows principal 100 (-1/2) (1/2) (8/1000)

-- ================================
-- CASH FLOW HELPERS & PAYMENT MATH (part_000 lines 137-143, 382-385)
-- ================================

/-- `monthlyRate` (part_000 lines 137-139). -/
def monthlyRate (annualRate : ℚ) : ℚ := annualRate / 12

/-- `discountFactor` (part_000 lines 141-143). -/
def discountFactor (rate : ℚ) (month : ℕ) : ℚ :=
  1 / (1 + rate / 12) ^ month

/-- `computeMonthlyPayment` (part_000 lines 382-385), the level-payment
annuity formula. -/
def computeMonthlyPayment (principal annualRate : ℚ) (months : ℕ) : ℚ :=
  let r := annualRate / 12
  principal * r / (1 - (1 + r) ^ (-(months : ℤ)))

-- ================================
-- DATA MODEL FOR valueLoan (src/unnamed/part_000 lines 149-376)
-- ================================

/-- A loan event; only the `type` field is inspected by the engine. -/
structure LoanEvent where
  type : String
  deriving DecidableEq, Repr

/-- A loan record.  The numeric fields model `Number(loan.principal)` etc.:
`none` is a non-numeric field (`NaN`), `some q` a numeric one. -/
structure Loan where
  loanId : String
  principal : Option ℚ
  rate : Option ℚ
  termYears : Option ℚ
  events : List LoanEvent
  deriving DecidableEq, Repr

/-- Per-tier default curve: `{ cumulativeDefaultPct: [...] }`. -/
structure DefaultCurve where
  cumulativeDefaultPct : List ℚ
  deriving DecidableEq, Repr

/-- Per-tier prepayment curve: `{ valuesPct: [...] }`. -/
structure PrepaymentCurve where
  valuesPct : List ℚ
  deriving DecidableEq, Repr

/-- Per-tier recovery parameters. -/
structure Recovery where
  grossRecoveryPct : ℚ
  recoveryLagMonths : ℕ
  deriving DecidableEq, Repr

/-- One risk-tier curve of `VALUATION_CURVES.riskTiers`. -/
structure RiskCurve where
  riskPremiumBps : ℚ
  defaultCurve : DefaultCurve
  prepaymentCurve : PrepaymentCurve
  recovery : Recovery
  deriving DecidableEq, Repr

/-- The loaded `VALUATION_CURVES` table.  Object lookups are modelled as
functions into `Option`. -/
structure Curves where
  riskTiers : String → Option RiskCurve
  degreeAdjustmentsBps : Option (String → Option ℚ)
  yearInSchoolAdjustmentsBps : Option (String → Option ℚ)
  graduateAdjustmentBps : Option ℚ

/-- The amortization schedule produced by `buildAmortSchedule` (imported from
the repository's `loanEngine.js`, which is not among the provided sources):
the seasoned `currentBalance` and one `(principal, interest)` row per
remaining month.  `valueLoan` is parameterized over the builder. -/
structure Amort where
  currentBalance : Option ℚ
  schedule : List (ℚ × ℚ)
  deriving DecidableEq, Repr

/-- The valuation result record.  The `riskBreakdown`/`curve` echo fields are
informational and not modelled. -/
structure VResult where
  loanId : String
  riskTier : String
  discountRate : JsOut
  npv : JsOut
  npvRatio : JsOut
  expectedLoss : JsOut
  wal : JsOut
  irr : JsOut
  deriving DecidableEq, Repr

/-- The invalid-basics test of part_000 line 158:
`!principalOrig || !rate || !termMonths || principalOrig <= 0 || rate <= 0
|| termMonths <= 0` with `termMonths = Number(loan.termYears) * 12`. -/
def invalidBasics (loan : Loan) : Bool :=
  let principalOrig := loan.principal
  let rate := loan.rate
  let termMonths := loan.termYears.map (fun t => t * 12)
  !(jsTruthy principalOrig) || !(jsTruthy rate) || !(jsTruthy termMonths) ||
    jsLe0 principalOrig || jsLe0 rate || jsLe0 termMonths

/-- `loan.events?.some(event => event.type === 'default')` (part_000
line 172). -/
def hasDefaultEvent (loan : Loan) : Bool :=
  loan.events.any (fun e => e.type = "default")

/-- The degenerate result returned for invalid loan basics (part_000 lines
159-168). -/
def unknownResult (loanId : String) : VResult :=
  { loanId := loanId, riskTier := "UNKNOWN", discountRate := .nullv,
    npv := .nan, npvRatio := .nullv, expectedLoss := .nan, wal := .nan,
    irr := .nan }

/-- The terminal result returned for a loan with a realized `default` event
(part_000 lines 173-183).  Note `npvRatio: -100` and `expectedLoss: 100`
are percent-scaled numbers, unlike the fractional simulated path. -/
def defaultedResult (loanId : String) : VResult :=
  { loanId := loanId, riskTier := "DEFAULTED", discountRate := .nullv,
    npv := .num 0, npvRatio := .num (-100), expectedLoss := .num 100,
    wal := .num 0, irr := .nan }

/-- The degenerate result returned when no curve exists for the derived risk
tier (part_000 lines 203-212). -/
def noCurveResult (loanId riskTier : String) : VResult :=
  { loanId := loanId, riskTier := riskTier, discountRate := .nullv,
    npv := .nan, npvRatio := .nullv, expectedLoss := .nan, wal := .nan,
    irr := .nan }

/-- `String(yearInSchool)` as used to key
`yearInSchoolAdjustmentsBps` (part_000 line 228).  Only integer values occur
in the data; non-integer rationals are mapped to a key that misses the
table, and the lookup then defaults to 0 bps. -/
def jsNumToString (x : Option ℚ) : String :=
  match x with
  | none => "undefined"
  | some q => if q.den = 1 then toString q.num else "nonIntegerKey"

/-- `valueLoan` (part_000 lines 149-376).  Parameters beyond the source
signature: `g` abstracts the transcendental annual-to-monthly hazard map of
the curve interpolators; `bas` is the imported `buildAmortSchedule`;
`curves`/`tiers` are the module-level `VALUATION_CURVES`/`SCHOOLTIERS`.
The result carries the possibly-mutated school-tier table; a thrown
exception is `.error`.  The dead `monthlyPayment` binding of line 191 (its
value is never read) is not modelled. -/
def valueLoan (g : ℚ → ℚ) (bas : Loan → Amort) (curves : Option Curves)
    (tiers : Option TierTable) (loan : Loan) (borrower : Borrower)
    (riskFreeRate : ℚ) : Except String (VResult × Option TierTable) :=
  if invalidBasics loan then
    .ok (unknownResult loan.loanId, tiers)
  else if hasDefaultEvent loan then
    .ok (defaultedResult loan.loanId, tiers)
  else
    let principalOrig := loan.principal.getD 0
    let rate := loan.rate.getD 0
    let amort := bas loan
    let principal := jsOrNum amort.currentBalance principalOrig
    let remainingMonths := amort.schedule.length
    let monthlyLoanRate := monthlyRate rate
    match curves with
    | none => .error "Valuation curves not loaded"
    | some CV =>
      let riskTier := deriveRiskTier borrower
      match CV.riskTiers riskTier with
      | none => .ok (noCurveResult loan.loanId riskTier, tiers)
      | some curve =>
        let normalizedDegree :=
          if borrower.degreeType = "Professional" then "Professional"
          else if borrower.degreeType = "Business" then "Business"
          else if borrower.degreeType = "STEM" then "STEM"
          else "Other"
        let degreeAdj := (CV.degreeAdjustmentsBps.bind
          (fun f => f normalizedDegree)).getD 0
        match getSchoolTier tiers borrower.school borrower.opeid with
        | .error e => .error e
        | .ok (schoolTier, tiers2) =>
          let schoolAdj := getSchoolAdjBps schoolTier
          let yearKey :=
            if jsGE borrower.yearInSchool 5 then "5+"
            else jsNumToString borrower.yearInSchool
          let yearAdj := (CV.yearInSchoolAdjustmentsBps.bind
            (fun f => f yearKey)).getD 0
          let gradAdj :=
            if borrower.isGraduateStudent then CV.graduateAdjustmentBps.getD 0
            else 0
          let totalRiskBps :=
            curve.riskPremiumBps + degreeAdj + schoolAdj + yearAdj + gradAdj
          let discountRate := riskFreeRate + totalRiskBps / 10000
          let monthlyDiscountRate := monthlyRate discountRate
          let monthlyPD := interpolateCumulativeDefaultsToMonthlyPD g
            curve.defaultCurve.cumulativeDefaultPct remainingMonths
          let monthlySMM := interpolateAnnualCPRToMonthlySMM g
            curve.prepaymentCurve.valuesPct remainingMonths
          let P : SimParams :=
            { payments := fun m =>
                (amort.schedule.getD (m - 1) (0, 0)).1 +
                  (amort.schedule.getD (m - 1) (0, 0)).2,
              monthlySMM := fun m => monthlySMM.getD (m - 1) 0,
              monthlyPD := fun m => monthlyPD.getD (m - 1) 0,
              monthlyLoanRate := monthlyLoanRate,
              monthlyDiscountRate := monthlyDiscountRate,
              recoveryPct := curve.recovery.grossRecoveryPct / 100,
              recoveryLag := curve.recovery.recoveryLagMonths,
              termMonths := remainingMonths,
              lateDF := fun recMonth => discountFactor discountRate (recMonth + 1) }
          let S := simulate P principal
          let irr := calculateIRR S.cashFlows principal
          .ok ({ loanId := loan.loanId, riskTier := riskTier,
                 discountRate := .num discountRate,
                 npv := .num S.npv,
                 npvRatio := npvRatioOut principal S.npv,
                 expectedLoss := expectedLossOut principal S.totalDefaults
                   S.totalRecoveries,
                 wal := walOut S.walNumerator S.totalCF,
                 irr := .num irr }, tiers2)

-- ================================
-- CONCRETE INPUTS FOR WITNESSES AND COUNTEREXAMPLES
-- ================================

/-- A borrower with no attributes set. -/
def borrowerNone : Borrower :=
  { borrowerFico := none, cosignerFico := none, yearInSchool := none,
    isGraduateStudent := false, degreeType := "", school := "", opeid := none }

/-- A trivial amortization builder (empty remaining schedule). -/
def basEmpty : Loan → Amort :=
  fun _ => { currentBalance := none, schedule := [] }

/-- A loan with valid basics and a realized `default` event. -/
def loanDefaulted : Loan :=
  { loanId := "L1", principal := some 100, rate := some (1/10),
    termYears := some 10, events := [{ type := "default" }] }

/-- A loan with invalid basics (zero principal) and no events. -/
def loanInvalid : Loan :=
  { loanId := "L0", principal := some 0, rate := some (1/10),
    termYears := some 10, events := [] }

/-- A loan with valid basics and no events. -/
def loanValid : Loan :=
  { loanId := "L2", principal := some 100, rate := some (1/10),
    termYears := some 10, events := [] }

/-- A school-tier table whose `DEFAULT` entry has `null` earnings. -/
def tierTableNullEarnings : TierTable :=
  [("DEFAULT",
    { tier := some "Tier 2", median_earnings_10yr := none, name := none })]

/-- The same table after `getSchoolTier` patches the `null` earnings. -/
def tierTableMutated : TierTable :=
  [("DEFAULT",
    { tier := some "Tier 2", median_earnings_10yr := some 50000, name := none })]

/-- A school-tier table whose `DEFAULT` entry has non-null earnings. -/
def tierTableOk : TierTable :=
  [("DEFAULT",
    { tier := some "Tier 2", median_earnings_10yr := some 40000, name := none })]

/-- Simulation parameters exhibiting the dropped recovery: one simulated
month, one month of recovery lag, 100% monthly default probability, 100%
gross recovery, all rates and payments zero. -/
def simDropParams : SimParams :=
  { payments := fun _ => 0, monthlySMM := fun _ => 0, monthlyPD := fun _ => 1,
    monthlyLoanRate := 0, monthlyDiscountRate := 0, recoveryPct := 1,
    recoveryLag := 1, termMonths := 1, lateDF := fun _ => 1 }

/-- Benign simulation parameters for witnesses: two months, no defaults or
prepayments, no lag. -/
def simZeroParams : SimParams :=
  { payments := fun _ => 10, monthlySMM := fun _ => 0, monthlyPD := fun _ => 0,
    monthlyLoanRate := 0, monthlyDiscountRate := 0, recoveryPct := 0,
    recoveryLag := 0, termMonths := 2, lateDF := fun _ => 1 }

/-- A loan with a non-numeric rate (`Number(loan.rate)` is `NaN`) and no
events. -/
def loanNoRate : Loan :=
  { loanId := "L3", principal := some 100, rate := none,
    termYears := some 10, events := [] }

-- ================================
-- THEOREMS
-- ================================

/-- The recovery queue is sized `termMonths + recoveryLag + 1` while the loop
only queues at `recMonth = m + recoveryLag` for `m ≤ termMonths`, so the
`recMonth < recoveryQueue.length` test of part_000 line 329 (part_001 line
343) is always true: the immediate-discount branch for beyond-queue
recoveries is unreachable, and recoveries queued past `termMonths` are never
paid out. -/
theorem recoveryBranch_always_queues (P : SimParams) (m : ℕ)
    (hm : m ≤ P.termMonths) :
    m + P.recoveryLag < P.termMonths + P.recoveryLag + 1 := by
  omega

/-- C6: the risk classification blends FICO scores as
`blended = borrowerFico ? max(borrowerFico, 0.7*borrowerFico +
0.3*(cosignerFico or borrowerFico)) : (cosignerFico or 0)`; whenever a
borrower FICO is present (truthy) the blended score is at least the
borrower's own score, so a weaker cosigner can never lower the blend. -/
theorem blendedFico_spec (b c : Option ℚ) :
    (jsTruthy b = true →
      blendedFico b c =
        max (b.getD 0) (7/10 * b.getD 0 + 3/10 * jsOrNum c (b.getD 0)) ∧
      b.getD 0 ≤ blendedFico b c) ∧
    (jsTruthy b = false → blendedFico b c = jsOrNum c 0) := by
  constructor
  · intro h
    constructor
    · simp only [blendedFico, h, if_true]
      norm_num
    · simp only [blendedFico, h, if_true]
      exact le_max_left _ _
  · intro h
    simp only [blendedFico, h, Bool.false_eq_true, if_false]

/-- Witness for `blendedFico_spec` at a concrete borrower/cosigner pair. -/
theorem blendedFico_spec_witness :
    jsTruthy (some (700 : ℚ)) = true ∧
    (some (700 : ℚ)).getD 0 ≤ blendedFico (some 700) (some 600) :=
  ⟨rfl, ((blendedFico_spec (some 700) (some 600)).1 rfl).2⟩

/-- C1 (amended): for every loan whose basics pass validation and whose
event list contains a `default` event, `valueLoan` returns the terminal
DEFAULTED result — `npv = 0`, `expectedLoss = 100` (percent-scaled, not the
fractional `1.0` of the simulated path), `wal = 0` — for every amortization
builder, curve table (even unloaded), school-tier table, borrower and
risk-free rate, bypassing the simulation entirely. -/
theorem valueLoan_default_event_terminal (g : ℚ → ℚ) (bas : Loan → Amort)
    (curves : Option Curves) (tiers : Option TierTable) (loan : Loan)
    (borrower : Borrower) (riskFreeRate : ℚ)
    (hbasics : invalidBasics loan = false)
    (hdef : hasDefaultEvent loan = true) :
    valueLoan g bas curves tiers loan borrower riskFreeRate =
      .ok (defaultedResult loan.loanId, tiers) := by
  simp only [valueLoan, hbasics, hdef, Bool.false_eq_true, if_false, if_true]

/-- Witness for `valueLoan_default_event_terminal` at a concrete defaulted
loan. -/
theorem valueLoan_default_event_terminal_witness :
    invalidBasics loanDefaulted = false ∧
    hasDefaultEvent loanDefaulted = true ∧
    valueLoan (fun a => a) basEmpty none none loanDefaulted borrowerNone (1/25)
      = .ok (defaultedResult "L1", none) := by
  have hb : invalidBasics loanDefaulted = false := by
    norm_num [invalidBasics, jsTruthy, jsLe0, loanDefaulted]
  have hd : hasDefaultEvent loanDefaulted = true := by
    norm_num [hasDefaultEvent, loanDefaulted]
  refine ⟨hb, hd, ?_⟩
  rw [valueLoan_default_event_terminal (fun a => a) basEmpty none none
    loanDefaulted borrowerNone (1/25) hb hd]
  rfl

/-- C1 counterexample: on a concrete defaulted loan the terminal result has
`expectedLoss = 100`, not `1.0` as the claim states (the terminal branch is
percent-scaled, unlike the fractional simulated path). -/
theorem defaultedLoan_expectedLoss_is_100 :
    valueLoan (fun a => a) basEmpty none none loanDefaulted borrowerNone (1/25)
      = .ok (defaultedResult "L1", none) ∧
    (defaultedResult "L1").expectedLoss = JsOut.num 100 ∧
    JsOut.num 100 ≠ JsOut.num 1 := by
  have hb : invalidBasics loanDefaulted = false := by
    norm_num [invalidBasics, jsTruthy, jsLe0, loanDefaulted]
  have hd : hasDefaultEvent loanDefaulted = true := by
    norm_num [hasDefaultEvent, loanDefaulted]
  refine ⟨?_, rfl, by simp⟩
  rw [valueLoan_default_event_terminal (fun a => a) basEmpty none none
    loanDefaulted borrowerNone (1/25) hb hd]
  rfl

/-- C3: for every loan whose principal, rate or term is non-numeric or
non-positive, `valueLoan` does not throw for any borrower, risk-free rate,
amortization builder or curve state: it returns the degenerate UNKNOWN
result (`riskTier = "UNKNOWN"`, `discountRate = null`, `npv`/`expectedLoss`/
`wal`/`irr = NaN`, `npvRatio = null`). -/
theorem valueLoan_invalid_basics_degenerate (g : ℚ → ℚ) (bas : Loan → Amort)
    (curves : Option Curves) (tiers : Option TierTable) (loan : Loan)
    (borrower : Borrower) (riskFreeRate : ℚ)
    (h : (loan.principal = none ∨ ∃ q, loan.principal = some q ∧ q ≤ 0) ∨
         (loan.rate = none ∨ ∃ q, loan.rate = some q ∧ q ≤ 0) ∨
         (loan.termYears = none ∨ ∃ q, loan.termYears = some q ∧ q ≤ 0)) :
    valueLoan g bas curves tiers loan borrower riskFreeRate =
      .ok (unknownResult loan.loanId, tiers) := by
  have hb : invalidBasics loan = true := by
    unfold invalidBasics
    rcases h with (hn | ⟨q, hq, hq0⟩) | (hn | ⟨q, hq, hq0⟩) | (hn | ⟨q, hq, hq0⟩)
    · simp [hn, jsTruthy]
    · simp [hq, jsLe0, hq0]
    · simp [hn, jsTruthy]
    · simp [hq, jsLe0, hq0]
    · simp [hn, jsTruthy]
    · have : jsLe0 (loan.termYears.map (fun t => t * 12)) = true := by
        rw [hq]
        simp only [Option.map_some', jsLe0, decide_eq_true_eq]
        nlinarith
      simp [this]
  simp only [valueLoan, hb, if_true]

/-- Witness for `valueLoan_invalid_basics_degenerate` at a concrete loan
with zero principal. -/
theorem valueLoan_invalid_basics_degenerate_witness :
    valueLoan (fun a => a) basEmpty none none loanInvalid borrowerNone (1/25)
      = .ok (unknownResult "L0", none) :=
  valueLoan_invalid_basics_degenerate (fun a => a) basEmpty none none
    loanInvalid borrowerNone (1/25)
    (Or.inl (Or.inr ⟨0, rfl, le_refl 0⟩))

/-- C4 counterexample: with the curve table null but an invalid loan,
`valueLoan` returns the degenerate UNKNOWN result instead of raising the
curves-not-loaded error — the invalid-basics (and default-event) early
returns precede the curves check, so the claim's "for every loan" fails. -/
theorem valueLoan_curves_null_no_raise :
    valueLoan (fun a => a) basEmpty none none loanNoRate borrowerNone (1/25)
      = .ok (unknownResult "L3", none) :=
  valueLoan_invalid_basics_degenerate (fun a => a) basEmpty none none
    loanNoRate borrowerNone (1/25) (Or.inr (Or.inl (Or.inl rfl)))

/-- C4 (amended): for every loan that passes the basics validation and has
no realized `default` event, `valueLoan` with a null curve table raises the
curves-not-loaded error rather than returning any result; loans caught by
the earlier invalid-basics or default-event returns do not reach the
check. -/
theorem valueLoan_curves_not_loaded_raises (g : ℚ → ℚ) (bas : Loan → Amort)
    (tiers : Option TierTable) (loan : Loan) (borrower : Borrower)
    (riskFreeRate : ℚ)
    (hbasics : invalidBasics loan = false)
    (hdef : hasDefaultEvent loan = false) :
    valueLoan g bas none tiers loan borrower riskFreeRate =
      .error "Valuation curves not loaded" := by
  simp only [valueLoan, hbasics, hdef, Bool.false_eq_true, if_false]

/-- Witness for `valueLoan_curves_not_loaded_raises` at a concrete valid
loan. -/
theorem valueLoan_curves_not_loaded_raises_witness :
    invalidBasics loanValid = false ∧ hasDefaultEvent loanValid = false ∧
    valueLoan (fun a => a) basEmpty none none loanValid borrowerNone (1/25)
      = .error "Valuation curves not loaded" := by
  have hb : invalidBasics loanValid = false := by
    norm_num [invalidBasics, jsTruthy, jsLe0, loanValid]
  have hd : hasDefaultEvent loanValid = false := by
    norm_num [hasDefaultEvent, loanValid]
  exact ⟨hb, hd, valueLoan_curves_not_loaded_raises (fun a => a) basEmpty none
    loanValid borrowerNone (1/25) hb hd⟩

/-- C9 (amended): a school-tier lookup leaves the table unchanged except
that, when the matched entry has `null` median earnings, that one entry is
mutated in place to carry the fallback value 50000.  (The risk-curve table,
loan and borrower are immutable values in this model; `valueLoan` threads
only the school-tier table through.) -/
theorem getSchoolTier_frame (T : TierTable) (name : String)
    (opeid : Option String) (r : String × Option TierTable)
    (h : getSchoolTier (some T) name opeid = .ok r) :
    r.2 = some T ∨
    ∃ k d, T.lookup k = some d ∧ d.median_earnings_10yr = none ∧
      r.2 = some (setEntry T k { d with median_earnings_10yr := some 50000 }) := by
  unfold getSchoolTier at h
  rcases ho : jsTruthyStr opeid with _ | _ <;> rw [ho] at h
  · simp only [Bool.false_eq_true, if_false] at h
    rcases hdef : T.lookup "DEFAULT" with _ | d0 <;> rw [hdef] at h
    · exact absurd h (by simp)
    · by_cases he : d0.median_earnings_10yr = none
      · simp only [he, if_true] at h
        cases h
        exact Or.inr ⟨"DEFAULT", d0, hdef, he, rfl⟩
      · simp only [he, if_false] at h
        cases h
        exact Or.inl rfl
  · simp only [if_true] at h
    rcases hl : T.lookup ((opeid.getD "").trim) with _ | d <;> rw [hl] at h
    · rcases hdef : T.lookup "DEFAULT" with _ | d0 <;> rw [hdef] at h
      · exact absurd h (by simp)
      · by_cases he : d0.median_earnings_10yr = none
        · simp only [he, if_true] at h
          cases h
          exact Or.inr ⟨"DEFAULT", d0, hdef, he, rfl⟩
        · simp only [he, if_false] at h
          cases h
          exact Or.inl rfl
    · by_cases he : d.median_earnings_10yr = none
      · simp only [he, if_true] at h
        cases h
        exact Or.inr ⟨(opeid.getD "").trim, d, hl, he, rfl⟩
      · simp only [he, if_false] at h
        cases h
        exact Or.inl rfl


/-- Witness for `getSchoolTier_frame` on a table whose matched entry already
has earnings data (the table comes back unchanged). -/
theorem getSchoolTier_frame_witness :
    getSchoolTier (some tierTableOk) "X" none = .ok ("Tier 2", some tierTableOk)
    ∧ ((("Tier 2", some tierTableOk) : String × Option TierTable).2 =
        some tierTableOk ∨
      ∃ k d, tierTableOk.lookup k = some d ∧ d.median_earnings_10yr = none ∧
        (("Tier 2", some tierTableOk) : String × Option TierTable).2 =
          some (setEntry tierTableOk k
            { d with median_earnings_10yr := some 50000 })) := by
  have h : getSchoolTier (some tierTableOk) "X" none =
      .ok ("Tier 2", some tierTableOk) := by
    simp [getSchoolTier, tierTableOk, jsTruthyStr, jsOrStr, List.lookup]
  exact ⟨h, getSchoolTier_frame tierTableOk "X" none _ h⟩

/-- C9 counterexample: a school-tier lookup against a table whose `DEFAULT`
entry has `null` median earnings returns a *different* table — the loaded
reference table is mutated by the call, contradicting the claim that it is
unchanged. -/
theorem getSchoolTier_mutates_table :
    getSchoolTier (some tierTableNullEarnings) "X" none =
      .ok ("Tier 2", some tierTableMutated) ∧
    tierTableMutated ≠ tierTableNullEarnings := by
  constructor
  · simp [getSchoolTier, tierTableNullEarnings, tierTableMutated, jsTruthyStr,
      jsOrStr, setEntry, List.lookup]
  · decide

/-- C2 evaluation at the failing input: one simulated month, one month of
recovery lag, 100% monthly default, 100% recovery.  The whole balance (100)
defaults in month 1; its recovery is queued at slot 2 of the
`termMonths + recoveryLag + 1 = 3`-slot queue, which the loop (reading only
slot `m ≤ 1`) never pays out, and the immediate-discount branch never fires
(see `recoveryBranch_always_queues`): recognized recoveries are 0, not
`recoveryPct * totalDefaults = 100`. -/
theorem recovery_silently_dropped :
    (simulate simDropParams 100).totalDefaults = 100 ∧
    (simulate simDropParams 100).totalRecoveries = 0 ∧
    (simulate simDropParams 100).totalRecoveries ≠
      simDropParams.recoveryPct * (simulate simDropParams 100).totalDefaults := by
  rw [show simulate simDropParams 100 =
      simStep simDropParams 1 (simRunTo simDropParams 100 0) from rfl]
  simp only [simRunTo]
  refine ⟨?_, ?_, ?_⟩ <;>
    norm_num [simStep, monthData, simDropParams, Function.update]

/-- Unfolding equation for one bisection iteration of the part_001 solver. -/
theorem irrLoopB_succ (cfs : List ℚ) (p : ℚ) (n : ℕ) (lo hi irr : ℚ) :
    irrLoopB cfs p (n + 1) lo hi irr =
      if |irrNpv cfs p irr| < 1/1000000 then .num (irr * 12 * 100)
      else if 0 < irrNpv cfs p irr then irrLoopB cfs p n irr hi ((irr + hi) / 2)
      else irrLoopB cfs p n lo irr ((lo + irr) / 2) := rfl

/-- All iterates of the bisection stay inside the initial bracket, and the
fallback NaN can only arise from an exhausted bracket at or below -100%
annual; an early-converged rate is returned as a number unconditionally. -/
theorem irrLoopB_characterization (cfs : List ℚ) (p : ℚ) (fuel : ℕ) :
    ∀ lo hi irr : ℚ, -1/2 ≤ lo → lo ≤ irr → irr ≤ hi → hi ≤ 1/2 →
    ∃ r : ℚ, -1/2 ≤ r ∧ r ≤ 1/2 ∧
      ((irrLoopB cfs p fuel lo hi irr = .num (r * 12 * 100) ∧
        (|irrNpv cfs p r| < 1/1000000 ∨ -100 < r * 12 * 100)) ∨
       (irrLoopB cfs p fuel lo hi irr = .nan ∧ r * 12 * 100 ≤ -100)) := by
  induction fuel with
  | zero =>
    intro lo hi irr h1 h2 h3 h4
    refine ⟨irr, by linarith, by linarith, ?_⟩
    by_cases hc : -100 < irr * 12 * 100
    · exact Or.inl ⟨by simp only [irrLoopB, hc, if_true], Or.inr hc⟩
    · refine Or.inr ⟨by simp only [irrLoopB, hc, if_false], by linarith⟩
  | succ n ih =>
    intro lo hi irr h1 h2 h3 h4
    by_cases hc : |irrNpv cfs p irr| < 1/1000000
    · refine ⟨irr, by linarith, by linarith, Or.inl ⟨?_, Or.inl hc⟩⟩
      rw [irrLoopB_succ, if_pos hc]
    · by_cases hp : 0 < irrNpv cfs p irr
      · obtain ⟨r, hr1, hr2, hr3⟩ :=
          ih irr hi ((irr + hi) / 2) (by linarith) (by linarith) (by linarith) h4
        refine ⟨r, hr1, hr2, ?_⟩
        rw [irrLoopB_succ, if_neg hc, if_pos hp]
        exact hr3
      · obtain ⟨r, hr1, hr2, hr3⟩ :=
          ih lo irr ((lo + irr) / 2) h1 (by linarith) (by linarith) (by linarith)
        refine ⟨r, hr1, hr2, ?_⟩
        rw [irrLoopB_succ, if_neg hc, if_neg hp]
        exact hr3

/-- C8 (amended): the final IRR solver bisects a monthly rate within the
initial bounds [-0.5, 0.5] (initial guess 0.008), for at most 100
iterations, stopping early when the residual magnitude falls below 1e-6 and
returning the rate annualized as `irr*12*100`; the NaN (undetermined) guard
applies only to the 100-iteration fallback, which is NaN exactly when the
exhausted bracket sits at or below -100% annual — an early-converged rate is
returned even when below -100%. -/
theorem calculateIRRFinal_characterization (cfs : List ℚ) (p : ℚ) :
    ∃ r : ℚ, -1/2 ≤ r ∧ r ≤ 1/2 ∧
      ((calculateIRRFinal cfs p = .num (r * 12 * 100) ∧
        (|irrNpv cfs p r| < 1/1000000 ∨ -100 < r * 12 * 100)) ∨
       (calculateIRRFinal cfs p = .nan ∧ r * 12 * 100 ≤ -100)) :=
  irrLoopB_characterization cfs p 100 (-1/2) (1/2) (8/1000)
    (le_refl _) (by norm_num) (by norm_num) (le_refl _)

/-- C8 counterexample: on the cash-flow vector `[-1000, 754]` with outlay
1000 the solver converges at the second midpoint -0.246 exactly (residual
NPV 0) and returns -295.2% annual — a finite value below -100% returned as
a number, where the claim requires NaN. -/
theorem calculateIRRFinal_below_minus100 :
    calculateIRRFinal [-1000, 754] 1000 = JsOut.num (-1476/5) ∧
    (-1476/5 : ℚ) < -100 ∧ JsOut.num (-1476/5) ≠ JsOut.nan := by
  refine ⟨?_, by norm_num, by simp⟩
  rw [show calculateIRRFinal [-1000, 754] 1000 =
      irrLoopB [-1000, 754] 1000 100 (-1/2) (1/2) (8/1000) from rfl]
  rw [show (100 : ℕ) = 99 + 1 from rfl, irrLoopB_succ]
  have e1 : irrNpv [-1000, 754] 1000 (8/1000) = -15875/63 := by
    norm_num [irrNpv, irrNpvAux]
  rw [e1, if_neg (by rw [abs_of_neg (by norm_num : (-15875/63 : ℚ) < 0)]; norm_num),
    if_neg (by norm_num)]
  rw [show (99 : ℕ) = 98 + 1 from rfl, irrLoopB_succ]
  have e2 : irrNpv [-1000, 754] 1000 ((-1/2 + 8/1000) / 2) = 0 := by
    norm_num [irrNpv, irrNpvAux]
  rw [e2, if_pos (by norm_num)]
  norm_num

/-- One active month preserves non-negativity: with the balance non-negative
and the month's SMM and PD in [0,1], the prepayment, the defaulted amount
and the end-of-month balance are all non-negative — `principalPaid` is
capped at the balance by the `min`, and prepay/default are multiplicative
fractions of what remains. -/
theorem monthData_nonneg (P : SimParams) (m : ℕ) (s : SimState)
    (_hb : 0 ≤ s.balance)
    (h1 : 0 ≤ P.monthlySMM m) (h2 : P.monthlySMM m ≤ 1)
    (h3 : 0 ≤ P.monthlyPD m) (h4 : P.monthlyPD m ≤ 1) :
    0 ≤ (monthData P m s).prepay ∧ 0 ≤ (monthData P m s).defaultAmt ∧
      0 ≤ (monthData P m s).newBalance := by
  have hmin : min (P.payments m - s.balance * P.monthlyLoanRate) s.balance
      ≤ s.balance := min_le_right _ _
  have ha : 0 ≤ s.balance -
      min (P.payments m - s.balance * P.monthlyLoanRate) s.balance := by
    linarith
  set a := s.balance -
    min (P.payments m - s.balance * P.monthlyLoanRate) s.balance with hadef
  have hprepay : (monthData P m s).prepay = a * P.monthlySMM m := rfl
  have hbrem : 0 ≤ a - a * P.monthlySMM m := by
    nlinarith [mul_le_mul_of_nonneg_left h2 ha]
  have hdefault : (monthData P m s).defaultAmt =
      (a - a * P.monthlySMM m) * P.monthlyPD m := rfl
  have hnew : (monthData P m s).newBalance =
      (a - a * P.monthlySMM m) - (a - a * P.monthlySMM m) * P.monthlyPD m := rfl
  refine ⟨?_, ?_, ?_⟩
  · rw [hprepay]; exact mul_nonneg ha h1
  · rw [hdefault]; exact mul_nonneg hbrem h3
  · rw [hnew]; nlinarith [mul_le_mul_of_nonneg_left h4 hbrem]

/-- C10: if the starting balance is non-negative and every monthly SMM and
PD entry lies in [0,1], the balance is non-negative at entry to every
iteration of the cash-flow loop, and the month's prepayment and defaulted
amount are non-negative — for every schedule/payment vector and every loan
and discount rate. -/
theorem sim_balance_nonneg (P : SimParams) (p0 : ℚ) (hp : 0 ≤ p0)
    (hsmm : ∀ m, 0 ≤ P.monthlySMM m ∧ P.monthlySMM m ≤ 1)
    (hpd : ∀ m, 0 ≤ P.monthlyPD m ∧ P.monthlyPD m ≤ 1) :
    ∀ m, 0 ≤ (simRunTo P p0 m).balance ∧
      0 ≤ (monthData P (m + 1) (simRunTo P p0 m)).prepay ∧
      0 ≤ (monthData P (m + 1) (simRunTo P p0 m)).defaultAmt := by
  have key : ∀ m, 0 ≤ (simRunTo P p0 m).balance := by
    intro m
    induction m with
    | zero => simpa [simRunTo] using hp
    | succ n ih =>
      show 0 ≤ (simStep P (n + 1) (simRunTo P p0 n)).balance
      by_cases hb : (simRunTo P p0 n).balance ≤ 0
      · simpa [simStep, hb] using ih
      · rw [simStep, if_neg hb]
        exact (monthData_nonneg P (n + 1) _ ih (hsmm (n + 1)).1 (hsmm (n + 1)).2
          (hpd (n + 1)).1 (hpd (n + 1)).2).2.2
  intro m
  exact ⟨key m,
    (monthData_nonneg P (m + 1) _ (key m) (hsmm (m + 1)).1 (hsmm (m + 1)).2
      (hpd (m + 1)).1 (hpd (m + 1)).2).1,
    (monthData_nonneg P (m + 1) _ (key m) (hsmm (m + 1)).1 (hsmm (m + 1)).2
      (hpd (m + 1)).1 (hpd (m + 1)).2).2.1⟩

/-- Witness for `sim_balance_nonneg` at concrete benign parameters. -/
theorem sim_balance_nonneg_witness :
    0 ≤ (simRunTo simZeroParams 100 2).balance ∧
    0 ≤ (monthData simZeroParams 3 (simRunTo simZeroParams 100 2)).prepay ∧
    0 ≤ (monthData simZeroParams 3 (simRunTo simZeroParams 100 2)).defaultAmt :=
  sim_balance_nonneg simZeroParams 100 (by norm_num)
    (fun m => by norm_num [simZeroParams])
    (fun m => by norm_num [simZeroParams]) 2

/-- The loop accumulators equal the sums of the per-month contributions:
`totalDefaults = Σ defaultAmt`, `totalRecoveries = Σ recognized recoveries`,
`walNumerator = Σ discountedCF·m`, `totalCF = Σ discountedCF`. -/
theorem sim_accumulators (P : SimParams) (p0 : ℚ) :
    ∀ n, (simRunTo P p0 n).totalDefaults = ∑ m ∈ Finset.Icc 1 n, defAt P p0 m ∧
      (simRunTo P p0 n).totalRecoveries = ∑ m ∈ Finset.Icc 1 n, recAt P p0 m ∧
      (simRunTo P p0 n).walNumerator =
        ∑ m ∈ Finset.Icc 1 n, dcfAt P p0 m * m ∧
      (simRunTo P p0 n).totalCF = ∑ m ∈ Finset.Icc 1 n, dcfAt P p0 m := by
  intro n
  induction n with
  | zero => simp [simRunTo]
  | succ n ih =>
    obtain ⟨ih1, ih2, ih3, ih4⟩ := ih
    have hd : defAt P p0 (n + 1) =
        if (simRunTo P p0 n).balance ≤ 0 then 0
        else (monthData P (n + 1) (simRunTo P p0 n)).defaultAmt := rfl
    have hr : recAt P p0 (n + 1) =
        if (simRunTo P p0 n).balance ≤ 0 then 0
        else (monthData P (n + 1) (simRunTo P p0 n)).lateRecovery +
          (monthData P (n + 1) (simRunTo P p0 n)).recoveryThisMonth := rfl
    have hc : dcfAt P p0 (n + 1) =
        if (simRunTo P p0 n).balance ≤ 0 then 0
        else (monthData P (n + 1) (simRunTo P p0 n)).discountedCF := rfl
    have e : simRunTo P p0 (n + 1) = simStep P (n + 1) (simRunTo P p0 n) := rfl
    rw [e]
    by_cases hb : (simRunTo P p0 n).balance ≤ 0
    · rw [simStep, if_pos hb]
      refine ⟨?_, ?_, ?_, ?_⟩ <;>
        rw [Finset.sum_Icc_succ_top (by omega : 1 ≤ n + 1)] <;>
        simp [hd, hr, hc, hb, ih1, ih2, ih3, ih4]
    · rw [simStep, if_neg hb]
      refine ⟨?_, ?_, ?_, ?_⟩ <;>
        rw [Finset.sum_Icc_succ_top (by omega : 1 ≤ n + 1)] <;>
        (simp [hd, hr, hc, hb, ih1, ih2, ih3, ih4]; try ring)

/-- C5 (amended): the completed simulation's outputs satisfy the claimed
formulas — `npvRatio = npv/originalPrincipal - 1`, `expectedLoss =
(Σ defaultAmt - Σ recovered)/originalPrincipal`, `wal = (Σ discountedCF·m)/
(Σ discountedCF)/12` — when their denominators are positive; with a
non-positive denominator, `npvRatio` is null and `wal` is NaN as claimed,
but `expectedLoss` degrades to the number 0, not to null/undefined. -/
theorem simulation_outputs_formulas (P : SimParams) (p0 originalPrincipal : ℚ) :
    (0 < originalPrincipal →
      npvRatioOut originalPrincipal (simulate P p0).npv =
        .num ((simulate P p0).npv / originalPrincipal - 1) ∧
      expectedLossOut originalPrincipal (simulate P p0).totalDefaults
          (simulate P p0).totalRecoveries =
        .num (((∑ m ∈ Finset.Icc 1 P.termMonths, defAt P p0 m) -
          ∑ m ∈ Finset.Icc 1 P.termMonths, recAt P p0 m) / originalPrincipal)) ∧
    (originalPrincipal ≤ 0 →
      npvRatioOut originalPrincipal (simulate P p0).npv = .nullv ∧
      expectedLossOut originalPrincipal (simulate P p0).totalDefaults
          (simulate P p0).totalRecoveries = .num 0) ∧
    (0 < (simulate P p0).totalCF →
      walOut (simulate P p0).walNumerator (simulate P p0).totalCF =
        .num ((∑ m ∈ Finset.Icc 1 P.termMonths, dcfAt P p0 m * m) /
          (∑ m ∈ Finset.Icc 1 P.termMonths, dcfAt P p0 m) / 12)) ∧
    ((simulate P p0).totalCF ≤ 0 →
      walOut (simulate P p0).walNumerator (simulate P p0).totalCF = .nan) := by
  obtain ⟨h1, h2, h3, h4⟩ := sim_accumulators P p0 P.termMonths
  refine ⟨fun hop => ⟨?_, ?_⟩, fun hop => ⟨?_, ?_⟩, fun hcf => ?_, fun hcf => ?_⟩
  · rw [npvRatioOut, if_pos hop]
  · rw [expectedLossOut, if_pos hop]
    rw [show (simulate P p0).totalDefaults = (simRunTo P p0 P.termMonths).totalDefaults from rfl,
      show (simulate P p0).totalRecoveries = (simRunTo P p0 P.termMonths).totalRecoveries from rfl,
      h1, h2]
  · rw [npvRatioOut, if_neg (not_lt.mpr hop)]
  · rw [expectedLossOut, if_neg (not_lt.mpr hop)]
  · rw [walOut, if_pos hcf]
    rw [show (simulate P p0).walNumerator = (simRunTo P p0 P.termMonths).walNumerator from rfl,
      show (simulate P p0).totalCF = (simRunTo P p0 P.termMonths).totalCF from rfl,
      h3, h4]
  · rw [walOut, if_neg (not_lt.mpr hcf)]

/-- Witness for `simulation_outputs_formulas` at concrete parameters with a
positive denominator. -/
theorem simulation_outputs_formulas_witness :
    npvRatioOut 50 (simulate simZeroParams 100).npv =
      .num ((simulate simZeroParams 100).npv / 50 - 1) :=
  ((simulation_outputs_formulas simZeroParams 100 50).1 (by norm_num)).1

/-- C5 counterexample: with a non-positive denominator the code's
`expectedLoss` is the number 0 — not null/undefined as the claim states for
all three outputs. -/
theorem expectedLoss_nonpositive_denominator_not_null :
    expectedLossOut 0 5 2 = JsOut.num 0 ∧ JsOut.num 0 ≠ JsOut.nullv ∧
    JsOut.num 0 ≠ JsOut.nan := by
  refine ⟨by norm_num [expectedLossOut], by simp, by simp⟩

/-- First-differencing preserves the number of years. -/
theorem firstDiff_length (cum : List ℚ) : (firstDiff cum).length = cum.length := by
  cases cum with
  | nil => rfl
  | cons c0 rest =>
    simp only [firstDiff, List.length_cons, List.length_zipWith]
    omega

/-- Length of the unp added year-to-month broadcast. -/
theorem flatRep_length (g : ℚ → ℚ) (vals : List ℚ) :
    ((vals.map (fun a => List.replicate 12 (g a))).flatten).length =
      12 * vals.length := by
  induction vals with
  | nil => rfl
  | cons a t ih =>
    simp only [List.map_cons, List.flatten_cons, List.length_append,
      List.length_replicate, ih, List.length_cons]
    ring

/-- Entry `i` of the unpadded broadcast is the year `i / 12` value. -/
theorem flatRep_getD (g : ℚ → ℚ) (vals : List ℚ) :
    ∀ i, i < 12 * vals.length →
      ((vals.map (fun a => List.replicate 12 (g a))).flatten).getD i 0 =
        g (vals.getD (i / 12) 0) := by
  induction vals with
  | nil => intro i hi; simp at hi
  | cons a t ih =>
    intro i hi
    rw [List.map_cons, List.flatten_cons]
    by_cases h12 : i < 12
    · rw [List.getD_append _ _ _ _ (by simpa using h12)]
      rw [List.getD_eq_getElem _ _ (by simpa using h12)]
      rw [List.getElem_replicate]
      rw [Nat.div_eq_of_lt h12]
      rfl
    · push_neg at h12
      rw [List.getD_append_right _ _ _ _ (by simpa using h12)]
      simp only [List.length_replicate]
      have ht : i - 12 < 12 * t.length := by
        simp only [List.length_cons] at hi
        omega
      rw [ih (i - 12) ht]
      have hdiv : i / 12 = (i - 12) / 12 + 1 := by omega
      rw [hdiv]
      rfl

/-- The last entry of the unpadded broadcast is the converted last year. -/
theorem flatRep_getLast (g : ℚ → ℚ) (vals : List ℚ) :
    (((vals.map (fun a => List.replicate 12 (g a))).flatten).getLast?).getD 0 =
      ((vals.getLast?).map g).getD 0 := by
  cases hv : vals with
  | nil => rfl
  | cons a t =>
    subst hv
    have hFlen : ((((a :: t)).map (fun a => List.replicate 12 (g a))).flatten).length
        = 12 * (a :: t).length := flatRep_length g (a :: t)
    have hlen1 : 1 ≤ (a :: t).length := by simp
    have h1 : (((a :: t).map (fun a => List.replicate 12 (g a))).flatten).getLast?
        = some ((((a :: t).map (fun a => List.replicate 12 (g a))).flatten).getD
          ((((a :: t).map (fun a => List.replicate 12 (g a))).flatten).length - 1) 0) := by
      rw [List.getLast?_eq_getElem?, List.getElem?_eq_getElem (by omega),
        List.getD_eq_getElem _ _ (by omega)]
    have h2 : (a :: t).getLast? =
        some ((a :: t).getD ((a :: t).length - 1) 0) := by
      rw [List.getLast?_eq_getElem?, List.getElem?_eq_getElem (by omega),
        List.getD_eq_getElem _ _ (by omega)]
    rw [h1, h2, Option.getD_some, Option.map_some', Option.getD_some]
    rw [hFlen]
    rw [flatRep_getD g (a :: t) (12 * (a :: t).length - 1) (by omega)]
    have hdiv : (12 * (a :: t).length - 1) / 12 = (a :: t).length - 1 := by omega
    rw [hdiv]

/-- The broadcast always produces exactly `n` entries. -/
theorem broadcast12_length (g : ℚ → ℚ) (vals : List ℚ) (n : ℕ) :
    (broadcast12 g vals n).length = n := by
  simp only [broadcast12, List.length_append, List.length_replicate,
    List.length_take]
  omega

/-- Pointwise description of the broadcast: year value inside the covered
range, flat extension of the last year's value beyond it. -/
theorem broadcast12_getD (g : ℚ → ℚ) (vals : List ℚ) (n i : ℕ) (hi : i < n) :
    (broadcast12 g vals n).getD i 0 =
      if i < 12 * vals.length then g (vals.getD (i / 12) 0)
      else ((vals.getLast?).map g).getD 0 := by
  simp only [broadcast12]
  have hFlen := flatRep_length g vals
  by_cases hcov : i < 12 * vals.length
  · rw [if_pos hcov]
    have hbase : i <
        (((vals.map (fun a => List.replicate 12 (g a))).flatten).take n).length := by
      simp only [List.length_take]
      omega
    rw [List.getD_append _ _ _ _ hbase]
    rw [List.getD_eq_getElem _ _ hbase, List.getElem_take,
      ← List.getD_eq_getElem _ 0 (by omega)]
    exact flatRep_getD g vals i hcov
  · rw [if_neg hcov]
    push_neg at hcov
    have hFn : ((vals.map (fun a => List.replicate 12 (g a))).flatten).length ≤ n := by
      omega
    rw [List.take_of_length_le hFn]
    rw [List.getD_append_right _ _ _ _ (by omega)]
    have hlt : i - ((vals.map (fun a => List.replicate 12 (g a))).flatten).length <
        n - ((vals.map (fun a => List.replicate 12 (g a))).flatten).length := by
      omega
    rw [List.getD_eq_getElem _ _ (by simpa using hlt), List.getElem_replicate]
    exact flatRep_getLast g vals

/-- The first-difference list implements `annual[0] = cum[0]`,
`annual[i] = cum[i] - cum[i-1]` pointwise. -/
theorem firstDiff_getD (cum : List ℚ) :
    ∀ i, i < cum.length →
      (firstDiff cum).getD i 0 =
        if i = 0 then cum.getD 0 0 else cum.getD i 0 - cum.getD (i - 1) 0 := by
  cases cum with
  | nil => intro i hi; simp at hi
  | cons c0 rest =>
    intro i hi
    match i with
    | 0 => rfl
    | j + 1 =>
      simp only [if_neg (Nat.succ_ne_zero j), firstDiff]
      rw [List.getD_cons_succ]
      have hj : j < rest.length := by simpa using hi
      have hj2 : j < (List.zipWith (fun a b => a - b) rest (c0 :: rest)).length := by
        simp [List.length_zipWith]
        omega
      rw [List.getD_eq_getElem _ _ hj2, List.getElem_zipWith]
      rw [List.getD_cons_succ, Nat.add_sub_cancel]
      rw [List.getD_eq_getElem _ _ hj]
      congr 1
      rw [List.getD_eq_getElem _ _ (by simp; omega : j < (c0 :: rest).length)]

/-- C7: for every annual cumulative default curve, annual CPR curve and
horizon of at least one month, the interpolators first-difference the
cumulative series (PD only), broadcast each year's converted monthly value
`g annual[y]` (where `g` abstracts `a ↦ 1-(1-a/100)^(1/12)`) over that
year's 12 months, and return exactly `horizonMonths` entries — truncating
when the curve covers more months than the horizon and repeating the last
monthly rate when it covers fewer. -/
theorem curve_interpolation_spec (g : ℚ → ℚ) (cum cpr : List ℚ) (n : ℕ)
    (_hn : 1 ≤ n) :
    (∀ i, i < cum.length →
      (firstDiff cum).getD i 0 =
        if i = 0 then cum.getD 0 0 else cum.getD i 0 - cum.getD (i - 1) 0) ∧
    (interpolateCumulativeDefaultsToMonthlyPD g cum n).length = n ∧
    (∀ i, i < n →
      (interpolateCumulativeDefaultsToMonthlyPD g cum n).getD i 0 =
        if i < 12 * cum.length then g ((firstDiff cum).getD (i / 12) 0)
        else (((firstDiff cum).getLast?).map g).getD 0) ∧
    (interpolateAnnualCPRToMonthlySMM g cpr n).length = n ∧
    (∀ i, i < n →
      (interpolateAnnualCPRToMonthlySMM g cpr n).getD i 0 =
        if i < 12 * cpr.length then g (cpr.getD (i / 12) 0)
        else ((cpr.getLast?).map g).getD 0) := by
  refine ⟨fun i hi => firstDiff_getD cum i hi,
    broadcast12_length g (firstDiff cum) n, fun i hi => ?_,
    broadcast12_length g cpr n, fun i hi => ?_⟩
  · rw [interpolateCumulativeDefaultsToMonthlyPD,
      broadcast12_getD g (firstDiff cum) n i hi, firstDiff_length]
  · rw [interpolateAnnualCPRToMonthlySMM, broadcast12_getD g cpr n i hi]

/-- Witness for `curve_interpolation_spec` at a concrete three-year curve
interpolated to a 40-month horizon. -/
theorem curve_interpolation_spec_witness :
    (interpolateCumulativeDefaultsToMonthlyPD (fun a => a) [1, 2, 3] 40).length
      = 40 ∧
    (interpolateAnnualCPRToMonthlySMM (fun a => a) [5] 40).length = 40 :=
  ⟨(curve_interpolation_spec (fun a => a) [1, 2, 3] [5] 40 (by norm_num)).2.1,
   (curve_interpolation_spec (fun a => a) [1, 2, 3] [5] 40 (by norm_num)).2.2.2.1⟩
